import Mathlib

/-!
Verification development for the PDFTOOLS backend (Flask app `backend/app.py`
plus `backend/utils/pdf_handler.py`).

The Python source is shallowly embedded: pure string/number manipulation is
translated directly (string operations are carried out on the character
list underlying the string, so that every definition evaluates inside the
kernel); filesystem state is an explicit association list from paths to
file models; the delegated PDF-library calls (PyPDF2 / PyMuPDF) are
abstracted by small oracles or by an idealized document model, exactly
where the source delegates to them.
-/

namespace PDFTools

/-! ## Python string primitives -/

/-- Python `s.split(sep)` for a one-character separator: keeps empty
pieces, `"".split(c) == [""]`. -/
def splitOnChar (sep : Char) : List Char → List (List Char)
  | [] => [[]]
  | c :: cs =>
    let r := splitOnChar sep cs
    if c = sep then [] :: r
    else
      match r with
      | [] => [[c]]
      | t :: ts => (c :: t) :: ts

/-- Python `str.strip()`: whitespace removed from both ends. -/
def pyStrip (cs : List Char) : List Char :=
  ((cs.dropWhile Char.isWhitespace).reverse.dropWhile Char.isWhitespace).reverse

/-- Value of a nonempty all-digit character list, else `none`. -/
def digitsVal? (cs : List Char) : Option Nat :=
  if cs = [] then none
  else if cs.all Char.isDigit then
    some (cs.foldl (fun acc c => 10 * acc + (c.toNat - 48)) 0)
  else none

/-- Python `int(s)` on a string: strips whitespace, accepts an optional
sign followed by one or more decimal digits, raises (here: `none`)
otherwise.  (Underscore separators and non-ASCII digits, which Python also
accepts, are not modelled; no input in this repository uses them.) -/
def pyInt? (s : List Char) : Option Int :=
  match pyStrip s with
  | [] => none
  | '+' :: rest => (digitsVal? rest).map (fun n => (n : Int))
  | '-' :: rest => (digitsVal? rest).map (fun n => -(n : Int))
  | cs => (digitsVal? cs).map (fun n => (n : Int))

/-- Python `range(a, b)` as a list of integers. -/
def intRange (a b : Int) : List Int :=
  (List.range (b - a).toNat).map (fun i => a + i)

/-! ## `parse_page_range` (backend/app.py, lines 944-960) -/

/-- Pages contributed by one comma-separated token of the page string,
mirroring the loop body of `parse_page_range`:
strip; if the token contains a dash, `start, end = part.split('-')`
(raising unless exactly two pieces) and `range(int(start), int(end) + 1)`;
otherwise `int(part)`.  `.error` stands for a raised `ValueError`. -/
def tokenPages (part0 : List Char) : Except String (List Int) :=
  let part := pyStrip part0
  if part.contains '-' then
    match splitOnChar '-' part with
    | [a, b] =>
      match pyInt? a, pyInt? b with
      | some s, some e => .ok (intRange s (e + 1))
      | _, _ => .error ("invalid literal for int(): " ++ String.mk part)
    | _ => .error ("cannot unpack token: " ++ String.mk part)
  else
    match pyInt? part with
    | some n => .ok [n]
    | _ => .error ("invalid literal for int(): " ++ String.mk part)

/-- The `for part in parts` loop: the first raising token wins. -/
def collectTokens : List (List Char) → Except String (List Int)
  | [] => .ok []
  | p :: rest =>
    match tokenPages p with
    | .error m => .error m
    | .ok xs =>
      match collectTokens rest with
      | .error m => .error m
      | .ok ys => .ok (xs ++ ys)

/-- Python `sorted(set(pages))`. -/
def sortedDedup (l : List Int) : List Int :=
  List.insertionSort (· ≤ ·) l.dedup

/-- Result of `parse_page_range`: Python returns `None` for the empty
string (the "all pages" sentinel), a list of ints otherwise, or raises
`ValueError` on a malformed token. -/
inductive ParseResult
  | allPages
  | pages (l : List Int)
  | error (msg : String)
deriving DecidableEq, Repr

/-- Function `parse_page_range` from backend/app.py: split on commas, accumulate
each token's pages, return `sorted(set(pages))`. -/
def parse_page_range (page_string : String) : ParseResult :=
  if page_string = "" then .allPages
  else
    match collectTokens (splitOnChar ',' page_string.data) with
    | .error m => .error m
    | .ok ps => .pages (sortedDedup ps)

example : parse_page_range "1,3,5-7" = .pages [1, 3, 5, 6, 7] := by decide
example : parse_page_range "3,1,2" = .pages [1, 2, 3] := by decide
example : parse_page_range "5-2" = .pages [] := by decide
example : parse_page_range "0" = .pages [0] := by decide
example : parse_page_range "" = .allPages := by decide
example : parse_page_range "abc" =
    .error "invalid literal for int(): abc" := by decide

/-! ## File and document model -/

/-- A PDF document on disk: its byte size, the rotation value stored on
each page (one list entry per page), and its encryption password, if any.
PyMuPDF's `doc.page_count` / PyPDF2's `len(reader.pages)` is the length of
`pageRotations`. -/
structure PDFFile where
  size : Nat
  pageRotations : List Int
  password : Option String
deriving DecidableEq, Repr

def PDFFile.pageCount (f : PDFFile) : Nat := f.pageRotations.length

/-- The filesystem: paths mapped to files. -/
abbrev FS := List (String × PDFFile)

def fsLookup (fs : FS) (p : String) : Option PDFFile :=
  (fs.find? (fun e => e.1 == p)).map (fun e => e.2)

/-- Method `PDFHandler._validate_pdf_path` (pdf_handler.py lines 29-37): returns
`(valid, error)`. -/
def validate_pdf_path (fs : FS) (path : String) : Bool × Option String :=
  if path = "" then (false, some "No file path provided")
  else
    match fsLookup fs path with
    | none => (false, some ("File not found: " ++ path))
    | some f => if f.size = 0 then (false, some "File is empty") else (true, none)

/-- Method `PDFHandler._safe_open_pdf` (pdf_handler.py lines 39-56).
`fitz.open` / `doc.authenticate` are modelled on the idealized document:
authentication succeeds exactly when the supplied password equals the
stored one (the source always sets owner and user password equal). -/
def safe_open_pdf (fs : FS) (path : String) (password : Option String) :
    Except String PDFFile :=
  match fsLookup fs path with
  | none => .error ("Failed to open PDF: no such file: " ++ path)
  | some doc =>
    if doc.password.isSome then
      if (password.getD "") ≠ "" then
        if password ≠ doc.password then .error "Invalid password"
        else if doc.pageCount = 0 then .error "PDF has no pages"
        else .ok doc
      else .error "PDF is encrypted. Password required."
    else
      if doc.pageCount = 0 then .error "PDF has no pages"
      else .ok doc

/-! ## Python dict result values -/

/-- The dynamic values appearing in the handlers' result dicts. -/
inductive PyVal
  | bool (b : Bool)
  | int (n : Int)
  | str (s : String)
  | strList (l : List String)
deriving DecidableEq, Repr

/-- A Python dict (insertion-ordered key/value list, keys unique here). -/
abbrev PyDict := List (String × PyVal)

/-- Python truthiness of a dict: non-empty dicts are truthy.  This is the
test `if success:` in app.py applies to the handlers' return values. -/
def pyTruthy (d : PyDict) : Bool := !d.isEmpty

def dictLookup (d : PyDict) (k : String) : Option PyVal :=
  (d.find? (fun e => e.1 == k)).map (fun e => e.2)

/-- The `'success'` key of a result dict. -/
def dictSuccess (d : PyDict) : Option Bool :=
  match dictLookup d "success" with
  | some (.bool b) => some b
  | _ => none

/-- The dict `{'success': False, 'error': msg}`. -/
def failDict (msg : String) : PyDict :=
  [("success", .bool false), ("error", .str msg)]

/-! ## `PDFHandler.merge_pdfs` (pdf_handler.py lines 58-94) -/

/-- Method `merge_pdfs`.  The delegated `PdfMerger` write is abstracted by the
oracle `mergedSize`: the byte size of the file found at `output_path`
after `merger.write` (0 meaning missing or empty, the condition the
source checks at line 89). -/
def merge_pdfs (fs : FS) (input_files : List String) (output_path : String)
    (mergedSize : Nat) : PyDict :=
  if input_files.isEmpty then failDict "No input files provided"
  else
    let valid_files := input_files.filter (fun p => (validate_pdf_path fs p).1)
    if valid_files.isEmpty then failDict "No valid PDF files to merge"
    else if valid_files.length < 2 then
      failDict "At least 2 valid PDF files required for merge"
    else if mergedSize = 0 then failDict "Failed to create merged PDF"
    else
      [("success", .bool true), ("output_path", .str output_path),
       ("files_merged", .int valid_files.length)]

/-! ## `PDFHandler.split_pdf` (pdf_handler.py lines 96-152) -/

/-- A dynamically-typed Python argument, as needed for the values app.py
actually passes to the handler. -/
inductive PyArg
  | str (s : String)
  | intList (l : List Int)
  | pyNone
deriving DecidableEq, Repr

def pyLower (s : String) : String := String.mk (s.data.map Char.toLower)

/-- The page-string parsing inside `split_pdf` (lines 111-132).  Note it
differs from app.py's `parse_page_range`: a dashed token uses
`parts[0], parts[1]` (extra dash pieces ignored), and the whole string is
one token.  Non-string truthy arguments raise on `.lower()`
(an `AttributeError`, caught by the handler's `except`). -/
def parseSplitPages (pages_str : PyArg) (total_pages : Nat) :
    Except String (List Int) :=
  match pages_str with
  | .pyNone => .ok (intRange 1 (total_pages + 1))
  | .intList l =>
    if l.isEmpty then .ok (intRange 1 (total_pages + 1))
    else .error "AttributeError: 'list' object has no attribute 'lower'"
  | .str s =>
    if s = "" ∨ pyLower s = "all" then .ok (intRange 1 (total_pages + 1))
    else if s.data.contains '-' then
      match splitOnChar '-' s.data with
      | p0 :: p1 :: _ =>
        match pyInt? p0, pyInt? p1 with
        | some a, some b => .ok (intRange a (b + 1))
        | _, _ => .error ("Invalid page range: " ++ s)
      | _ => .error ("Invalid page range: " ++ s)
    else if s.data.contains ',' then
      match (splitOnChar ',' s.data).mapM pyInt? with
      | some ints => .ok ints
      | none => .error ("Invalid page list: " ++ s)
    else
      match pyInt? s.data with
      | some n => .ok [n]
      | none => .error ("Invalid page number: " ++ s)

/-- Method `split_pdf(self, input_path, output_dir, pages_str)`: validates the
input, parses the page selection, filters to in-range pages, and writes
`page_{n}.pdf` per selected page under `output_dir`.  Returns the result
dict together with the list of files written (the source's `output_files`;
empty on every failure path, since nothing has been written yet). -/
def handler_split_pdf (fs : FS) (input_path : String) (output_dir : PyArg)
    (pages_str : PyArg) : PyDict × List String :=
  let v := validate_pdf_path fs input_path
  if !v.1 then (failDict (v.2.getD ""), [])
  else
    match fsLookup fs input_path with
    | none => (failDict ("File not found: " ++ input_path), [])
    | some doc =>
      let total_pages := doc.pageCount
      if total_pages = 0 then (failDict "PDF has no pages", [])
      else
        match parseSplitPages pages_str total_pages with
        | .error m => (failDict m, [])
        | .ok pages =>
          let valid_pages := pages.filter
            (fun p => decide (1 ≤ p) && decide (p ≤ (total_pages : Int)))
          if valid_pages.isEmpty then
            (failDict ("No valid pages specified. PDF has " ++
              toString total_pages ++ " pages."), [])
          else
            match output_dir with
            | .str dir =>
              let files := valid_pages.map
                (fun p => dir ++ "/page_" ++ toString p ++ ".pdf")
              ([("success", .bool true), ("pages", .strList files),
                ("page_count", .int files.length)], files)
            | _ =>
              (failDict "TypeError: os.makedirs path must be a string", [])

/-! ## Endpoints (backend/app.py) -/

/-- An HTTP response envelope: the `success` flag of the JSON body, the
HTTP status code, and the `message` field. -/
structure HttpResponse where
  success : Bool
  status : Nat
  message : String
deriving DecidableEq, Repr

/-- Endpoint `POST /api/pdf/merge` (app.py lines 182-211).  `filesProvided` is
`'files' in request.files`; `files` are the saved upload paths. -/
def merge_endpoint (fs : FS) (filesProvided : Bool) (files : List String)
    (output_path : String) (mergedSize : Nat) : HttpResponse :=
  if !filesProvided then ⟨false, 400, "No PDF files provided"⟩
  else if files.length < 2 then
    ⟨false, 400, "At least 2 PDF files required for merging"⟩
  else
    let d := merge_pdfs fs files output_path mergedSize
    if pyTruthy d then ⟨true, 200, "PDFs merged successfully"⟩
    else ⟨false, 500, "Failed to merge PDFs"⟩

/-- Endpoint `POST /api/pdf/split` (app.py lines 213-245).  A raised
`parse_page_range` error lands in the handler's generic `except`, giving
the 500 response of line 245.  The call at line 234 is
`pdf_handler.split_pdf(filepath, page_list, output_dir)` against the
signature `split_pdf(self, input_path, output_dir, pages_str)`, so the
page list is passed as the output directory and the output-directory
string as the pages argument; this swap is reproduced faithfully here. -/
def split_endpoint (fs : FS) (fileProvided : Bool) (fileOk : Bool)
    (filepath : String) (pagesForm : String) (outputDirStr : String) :
    HttpResponse × List String :=
  if !fileProvided then (⟨false, 400, "No PDF file provided"⟩, [])
  else if !fileOk then (⟨false, 400, "Invalid file"⟩, [])
  else
    let pr := if pagesForm ≠ "" then parse_page_range pagesForm else .allPages
    match pr with
    | .error _ => (⟨false, 500, "Error splitting PDF"⟩, [])
    | .allPages =>
      let r := handler_split_pdf fs filepath .pyNone (.str outputDirStr)
      (if pyTruthy r.1 then ⟨true, 200, "PDF split successfully"⟩
       else ⟨false, 500, "Failed to split PDF"⟩, r.2)
    | .pages l =>
      let r := handler_split_pdf fs filepath (.intList l) (.str outputDirStr)
      (if pyTruthy r.1 then ⟨true, 200, "PDF split successfully"⟩
       else ⟨false, 500, "Failed to split PDF"⟩, r.2)

/-- A three-page, 300-byte, unencrypted test document. -/
def threePageDoc : PDFFile := ⟨300, [0, 0, 0], none⟩

example :
    split_endpoint [("up/x.pdf", threePageDoc)] true true "up/x.pdf" "1-2"
      "outputs/123e4567-e89b" =
    (⟨true, 200, "PDF split successfully"⟩, []) := by decide

example :
    (handler_split_pdf [("up/x.pdf", threePageDoc)] "up/x.pdf"
      (.intList [1, 2]) (.str "outputs/123e4567-e89b")).1 =
    failDict "Invalid page range: outputs/123e4567-e89b" := by decide

example :
    merge_endpoint [("a.pdf", ⟨0, [], none⟩), ("b.pdf", ⟨0, [], none⟩)] true
      ["a.pdf", "b.pdf"] "out.pdf" 0 =
    ⟨true, 200, "PDFs merged successfully"⟩ := by decide

/-! ## `PDFHandler.rotate_pdf` (pdf_handler.py lines 154-196) -/

/-- Round-half-to-even of `a / 90`, for `a ≥ 0`: Python's `round(angle/90)`
(the float quotient is exact at the half points 45, 135, 225, 315, and for
every other integer below 360 it is far enough from a half for rounding to
agree with the exact rational value). -/
def roundHalfEvenDiv90 (a : Int) : Int :=
  let q := a.ediv 90
  let r := a.emod 90
  if 2 * r < 90 then q
  else if 90 < 2 * r then q + 1
  else if q.emod 2 = 0 then q else q + 1

/-- Angle normalization of `rotate_pdf` (lines 161-165):
`angle = int(angle) % 360`, then if not already in `[0, 90, 180, 270]`,
`angle = round(angle / 90) * 90 % 360`. -/
def normalize_angle (angle : Int) : Int :=
  let a := angle % 360
  if a = 0 ∨ a = 90 ∨ a = 180 ∨ a = 270 then a
  else roundHalfEvenDiv90 a * 90 % 360

/-- Distance between two angles on the 360-degree circle. -/
def circDist (x y : Int) : Int :=
  min ((x - y) % 360) ((y - x) % 360)

/-- Replace the element at an index, identity when out of range. -/
def modifyNth (f : α → α) : Nat → List α → List α
  | _, [] => []
  | 0, x :: xs => f x :: xs
  | n + 1, x :: xs => x :: modifyNth f n xs

/-- The rotation loop (lines 184-189): for each requested page number in
range, `page.set_rotation(page.rotation + angle)`, counting the pages
rotated. -/
def rotatePagesLoop (angle : Int) (total : Nat) :
    List Int → List Int → List Int × Nat
  | rots, [] => (rots, 0)
  | rots, p :: rest =>
    if 1 ≤ p ∧ p ≤ (total : Int) then
      let r := rotatePagesLoop angle total
        (modifyNth (fun x => x + angle) (p - 1).toNat rots) rest
      (r.1, r.2 + 1)
    else rotatePagesLoop angle total rots rest

inductive RotateResult
  | ok (out : PDFFile) (pages_rotated : Nat)
  | err (msg : String)
deriving DecidableEq, Repr

/-- Method `rotate_pdf`.  `pages` is the already-parsed page list (`None` or a
list is what app.py would pass; the string branch of lines 175-182 is for
direct string callers and is not modelled).  The saved output document is
returned in `.ok`; its byte size is approximated by the input's, which no
examined property depends on. -/
def rotate_pdf (fs : FS) (input_path output_path : String) (angle : Int)
    (pages : Option (List Int)) : RotateResult :=
  let v := validate_pdf_path fs input_path
  if !v.1 then .err (v.2.getD "")
  else
    let angle := normalize_angle angle
    match safe_open_pdf fs input_path none with
    | .error e => .err e
    | .ok doc =>
      let total_pages := doc.pageCount
      let page_list :=
        match pages with
        | none => intRange 1 (total_pages + 1)
        | some l => l
      let r := rotatePagesLoop angle total_pages doc.pageRotations page_list
      .ok { doc with pageRotations := r.1 } r.2

/-! ## `PDFHandler.remove_pages` (pdf_handler.py lines 691-727) -/

/-- The deletion loop (lines 720-721): `doc.delete_page(i)` for each
0-indexed page in descending order; an out-of-range index makes PyMuPDF
raise (landing in the handler's `except`). -/
def deletePagesLoop : List Int → List Nat → Except String (List Int)
  | rots, [] => .ok rots
  | rots, i :: rest =>
    if i < rots.length then deletePagesLoop (rots.eraseIdx i) rest
    else .error "bad page number"

inductive RemoveResult
  | ok (out : PDFFile) (pages_removed : Nat)
  | err (msg : String)
deriving DecidableEq, Repr

/-- Method `remove_pages(self, input_path, output_path, pages_to_remove)`.  The
output document is written only in the `.ok` case (the source saves at
line 723, after every check and the deletion loop). -/
def remove_pages (fs : FS) (input_path output_path : String)
    (pages_to_remove : List Int) : RemoveResult :=
  let v := validate_pdf_path fs input_path
  if !v.1 then .err (v.2.getD "")
  else if pages_to_remove.isEmpty then .err "No pages specified to remove"
  else
    match safe_open_pdf fs input_path none with
    | .error e => .err e
    | .ok doc =>
      let total_pages := doc.pageCount
      let valid_pages := pages_to_remove.filter
        (fun p => decide (1 ≤ p) && decide (p ≤ (total_pages : Int)))
      if valid_pages.isEmpty then
        .err ("Invalid page numbers. PDF has " ++ toString total_pages ++ " pages.")
      else if total_pages ≤ valid_pages.length then
        .err "Cannot remove all pages from PDF"
      else
        let pages_to_delete :=
          List.insertionSort (· ≥ ·) (valid_pages.map (fun p => (p - 1).toNat))
        match deletePagesLoop doc.pageRotations pages_to_delete with
        | .error e => .err e
        | .ok rots => .ok { doc with pageRotations := rots } valid_pages.length

/-! ## `PDFHandler.compress_pdf` (pdf_handler.py lines 198-378) -/

/-- The quality → (JPEG quality, scale) table of lines 226-251.  These
settings feed only the delegated PIL recompression, which is abstracted
by an oracle below. -/
def compressionSettings (quality : String) (target_reduction : Option Int) :
    Nat × ℚ :=
  let byQuality : Nat × ℚ :=
    if quality = "low" then (20, 35 / 100)
    else if quality = "high" then (85, 1)
    else (50, 6 / 10)
  match target_reduction with
  | some t =>
    if t ≠ 0 then
      let reduction_pct := min (max t 10) 90
      if 70 ≤ reduction_pct then (20, 35 / 100)
      else if 50 ≤ reduction_pct then (40, 55 / 100)
      else if 30 ≤ reduction_pct then (60, 75 / 100)
      else (80, 9 / 10)
    else byQuality
  | none => byQuality

structure CompressOk where
  output_path : String
  original_size : Nat
  compressed_size : Nat
  reduction : ℚ
  images_processed : Nat
  method : String
deriving DecidableEq, Repr

inductive CompressResult
  | ok (r : CompressOk)
  | err (msg : String)
deriving DecidableEq, Repr

/-- Method `compress_pdf`.  The two delegated compression attempts are oracles:
`m1` is the size of the output after the pypdf `compress_content_streams`
pass (`none` = that pass raised, triggering the `shutil.copy` fallback of
lines 269-271), and `m2` the size after the PyMuPDF image-recompression
save (`none` = it raised, line 356-357's `pass`).  The 0.9 threshold of
line 275 is stated over integers (`c1 ≥ 0.9 · original`); the float
literal 0.9 is a hair above 9/10, which can flip this branch test only
for sizes beyond 2^52 bytes and never affects the final size guard of
lines 360-366.  The `round(…, 2)` on the reduction percentage is not
modelled. -/
def compress_pdf (fs : FS) (input_path output_path : String) (quality : String)
    (target_reduction : Option Int) (m1 : Option Nat) (m2 : Option Nat)
    (images_compressed : Nat) : CompressResult :=
  let v := validate_pdf_path fs input_path
  if !v.1 then .err (v.2.getD "")
  else
    match fsLookup fs input_path with
    | none => .err ("File not found: " ++ input_path)
    | some f =>
      let original_size := f.size
      if original_size = 0 then .err "Input file is empty"
      else
        let c1 :=
          match m1 with
          | some s => s
          | none => original_size
        let step2 : Nat × String :=
          if 9 * original_size ≤ 10 * c1 ∧ quality ≠ "high" then
            match m2 with
            | some s => (s, "pymupdf+pypdf")
            | none => (c1, "pypdf")
          else (c1, "pypdf")
        if original_size ≤ step2.1 then
          .ok ⟨output_path, original_size, original_size, 0,
            images_compressed, step2.2⟩
        else
          .ok ⟨output_path, original_size, step2.1,
            (1 - (step2.1 : ℚ) / (original_size : ℚ)) * 100,
            images_compressed, step2.2⟩

/-! ## `PDFHandler.protect_pdf` / `unlock_pdf` (pdf_handler.py 611-665) -/

inductive SecResult
  | ok (out : PDFFile)
  | err (msg : String)
deriving DecidableEq, Repr

/-- Method `protect_pdf`: validate, reject an empty password, `_safe_open_pdf`
without a password (so an already-encrypted input is rejected), then save
with AES-256 encryption, owner and user password both `password`. -/
def protect_pdf (fs : FS) (input_path output_path : String)
    (password : String) : SecResult :=
  let v := validate_pdf_path fs input_path
  if !v.1 then .err (v.2.getD "")
  else if password = "" then .err "Password cannot be empty"
  else
    match safe_open_pdf fs input_path none with
    | .error e => .err e
    | .ok doc => .ok { doc with password := some password }

/-- Method `unlock_pdf`: open raw; on an encrypted document an empty password is
rejected, a wrong one gives the distinct message `"Invalid password"`, a
correct one authenticates and the document is saved without encryption;
an unencrypted input is rejected. -/
def unlock_pdf (fs : FS) (input_path output_path : String)
    (password : String) : SecResult :=
  let v := validate_pdf_path fs input_path
  if !v.1 then .err (v.2.getD "")
  else
    match fsLookup fs input_path with
    | none => .err ("Failed to open PDF: no such file: " ++ input_path)
    | some doc =>
      match doc.password with
      | some real =>
        if password = "" then .err "Password required to unlock PDF"
        else if password ≠ real then .err "Invalid password"
        else .ok { doc with password := none }
      | none => .err "PDF is not password protected"

/-! ## Rotate and remove-pages endpoints (backend/app.py) -/

/-- Endpoint `POST /api/pdf/rotate` (app.py lines 247-275).  `int(form angle)` and
`parse_page_range` both raise into the generic `except` (HTTP 500).  Once
they succeed, line 265 calls `pdf_handler.rotate_pages(...)` — a method
that does not exist on `PDFHandler` (the class defines `rotate_pdf`), so
an `AttributeError` is raised and caught: the endpoint answers 500. -/
def rotate_endpoint (fs : FS) (fileProvided : Bool) (angleForm : Option String)
    (pagesForm : String) (fileOk : Bool) (filepath : String) : HttpResponse :=
  if !fileProvided then ⟨false, 400, "No PDF file provided"⟩
  else
    let angleOk :=
      match angleForm with
      | none => true
      | some s => (pyInt? s.data).isSome
    if !angleOk then ⟨false, 500, "Error rotating PDF"⟩
    else if !fileOk then ⟨false, 400, "Invalid file"⟩
    else
      match (if pagesForm ≠ "" then parse_page_range pagesForm else .allPages) with
      | .error _ => ⟨false, 500, "Error rotating PDF"⟩
      | _ => ⟨false, 500, "Error rotating PDF"⟩

/-- Truthiness of the dict `remove_pages` returns: its success and its
failure dicts are both non-empty, hence truthy under `if success:`. -/
def removeResultTruthy : RemoveResult → Bool
  | .ok _ _ => true
  | .err _ => true

/-- Endpoint `POST /api/pdf/remove-pages` (app.py lines 431-461). -/
def remove_pages_endpoint (fs : FS) (fileProvided : Bool) (pagesForm : String)
    (fileOk : Bool) (filepath output_path : String) : HttpResponse :=
  if !fileProvided then ⟨false, 400, "No PDF file provided"⟩
  else if pagesForm = "" then ⟨false, 400, "No pages specified for removal"⟩
  else if !fileOk then ⟨false, 400, "Invalid file"⟩
  else
    match parse_page_range pagesForm with
    | .error _ => ⟨false, 500, "Error removing pages"⟩
    | .allPages =>
      -- unreachable: parse_page_range returns the sentinel only on ""
      ⟨true, 200, "Pages removed successfully"⟩
    | .pages l =>
      let r := remove_pages fs filepath output_path l
      if removeResultTruthy r then ⟨true, 200, "Pages removed successfully"⟩
      else ⟨false, 500, "Failed to remove pages"⟩

/-! ## Session temp-directory cleanup -/

/-- Test that `as` is a path prefix of `bs` (character-wise). -/
def isPathPrefix : List Char → List Char → Bool
  | [], _ => true
  | _, [] => false
  | a :: as, b :: bs => a == b && isPathPrefix as bs

/-- Modelled from the spec: the shutdown/signal cleanup of the session
temp directory (spec §4.4 and §6: "SIGINT/SIGTERM trigger graceful
shutdown with forced temp-directory removal", idempotent, a no-op after
removal).  backend/app.py only creates the folders (lines 30-32); no
cleanup-on-shutdown code exists under src/, so this follows the spec's
words: the root and everything under it are removed recursively, a
repeat invocation is a no-op, and the operation never throws (`.error`
is never produced). -/
def cleanup_session_root (root : String) (fs : List String) :
    Except String (List String) :=
  .ok (fs.filter
    (fun p => !(p == root || isPathPrefix (root ++ "/").data p.data)))

/-! # Claims -/

/-- C1: the claim states that the merge and split endpoints' HTTP
success/failure classification agrees with the `'success'` key of the
dict the delegated `PDFHandler` operation returns.  It does not: app.py
tests the returned dict with `if success:` (lines 203, 236), and a
non-empty failure dict is truthy in Python, so a delegated failure is
reported as success.  Shown here on concrete inputs: merging two 0-byte
uploads makes `merge_pdfs` return `{'success': False, 'error': 'No valid
PDF files to merge'}` yet the endpoint body says success; likewise for
split (where the swapped-argument call makes the handler fail). -/
theorem merge_split_failure_reported_as_success :
    dictSuccess (merge_pdfs [("a.pdf", ⟨0, [], none⟩), ("b.pdf", ⟨0, [], none⟩)]
        ["a.pdf", "b.pdf"] "out.pdf" 0) = some false ∧
    (merge_endpoint [("a.pdf", ⟨0, [], none⟩), ("b.pdf", ⟨0, [], none⟩)] true
        ["a.pdf", "b.pdf"] "out.pdf" 0).success = true ∧
    dictSuccess (handler_split_pdf [("up/x.pdf", threePageDoc)] "up/x.pdf"
        (.intList [1, 2]) (.str "outputs/123e4567-e89b")).1 = some false ∧
    (split_endpoint [("up/x.pdf", threePageDoc)] true true "up/x.pdf" "1-2"
        "outputs/123e4567-e89b").1.success = true := by decide

/-- C2: the claim states that splitting a 3-page PDF with pages `"1-2"`
through the split endpoint produces exactly 2 output page files.  It does
not: app.py line 234 calls `pdf_handler.split_pdf(filepath, page_list,
output_dir)` against the signature `split_pdf(self, input_path,
output_dir, pages_str)`, so the output-directory string (which always
contains a dash, `outputs/<uuid4>`) is parsed as the page range, parsing
fails, and the handler returns a failure dict having written 0 files —
for `"1-2"` and for the out-of-range `"4"` alike.  (No crash does occur:
the handler catches everything, as the total embedding reflects.) -/
theorem split_endpoint_writes_no_files :
    (split_endpoint [("up/x.pdf", threePageDoc)] true true "up/x.pdf" "1-2"
        "outputs/123e4567-e89b").2.length = 0 ∧
    (split_endpoint [("up/x.pdf", threePageDoc)] true true "up/x.pdf" "4"
        "outputs/123e4567-e89b").2.length = 0 ∧
    (handler_split_pdf [("up/x.pdf", threePageDoc)] "up/x.pdf"
        (.intList [1, 2]) (.str "outputs/123e4567-e89b")).1 =
      failDict "Invalid page range: outputs/123e4567-e89b" := by decide

/-- C4 counterexample: the claim states that a dashed range with
start > end, or a token denoting a number < 1, makes `parse_page_range`
fail with a parse error.  Instead `"5-2"` yields the empty page list
(`range(5, 3)` is empty, silently) and `"0"` is accepted and returned. -/
theorem parse_page_range_accepts_bad_tokens :
    parse_page_range "5-2" = .pages [] ∧
    parse_page_range "0" = .pages [0] ∧
    (∀ msg, parse_page_range "5-2" ≠ .error msg) := by
  refine ⟨by decide, by decide, fun msg h => ?_⟩
  rw [show parse_page_range "5-2" = .pages [] from by decide] at h
  exact ParseResult.noConfusion h

/-- C4 amended: a dashed token whose start exceeds its end denotes the
empty range and is silently dropped (the remaining tokens' pages are
returned without error), and tokens denoting numbers < 1 are accepted
into the result; in general an empty `range` results whenever the
range's end lies below its start. -/
theorem parse_page_range_amended :
    parse_page_range "5-2" = .pages [] ∧
    parse_page_range "1,5-2,3" = .pages [1, 3] ∧
    parse_page_range "0" = .pages [0] ∧
    parse_page_range "0,2" = .pages [0, 2] ∧
    (∀ a b : Int, b < a → intRange a (b + 1) = []) := by
  refine ⟨by decide, by decide, by decide, by decide, fun a b hba => ?_⟩
  have h0 : (b + 1 - a).toNat = 0 := by omega
  simp [intRange, h0]

/-- C4 amended, witness for the final general clause. -/
theorem parse_page_range_amended_witness :
    (2 : Int) < 5 ∧ intRange 5 (2 + 1) = [] :=
  ⟨by decide, parse_page_range_amended.2.2.2.2 5 2 (by decide)⟩

/-- C6: after cleanup of the session temp root, neither the root nor any
path under it remains; a repeated cleanup is a no-op and, like the first,
returns without error.  (`cleanup_session_root` is modelled from the
spec — src/ contains no shutdown cleanup code.) -/
theorem cleanup_session_root_removes_all_and_idempotent
    (root : String) (fs : List String) :
    ∃ fs', cleanup_session_root root fs = .ok fs' ∧
      root ∉ fs' ∧
      (∀ p ∈ fs', isPathPrefix (root ++ "/").data p.data = false) ∧
      cleanup_session_root root fs' = .ok fs' := by
  refine ⟨_, rfl, ?_, ?_, ?_⟩
  · intro hmem
    have := (List.mem_filter.mp hmem).2
    simp at this
  · intro p hmem
    have := (List.mem_filter.mp hmem).2
    simp at this
    exact this.2
  · unfold cleanup_session_root
    congr 1
    apply List.filter_eq_self.mpr
    intro a ha
    exact (List.mem_filter.mp ha).2

/-- C8 counterexample: the claim states a malformed page-range string
gives HTTP 400.  A malformed string makes `parse_page_range` raise inside
the endpoint's `try`, the generic `except` catches it, and the response
carries HTTP 500. -/
theorem split_malformed_pages_gives_500 :
    (split_endpoint [("up/x.pdf", threePageDoc)] true true "up/x.pdf" "abc"
        "outputs/123e4567-e89b").1 = ⟨false, 500, "Error splitting PDF"⟩ ∧
    (split_endpoint [("up/x.pdf", threePageDoc)] true true "up/x.pdf" "abc"
        "outputs/123e4567-e89b").1.status ≠ 400 := by decide

/-- C8 amended: for the split, rotate and remove-pages endpoints, a
malformed page-range string yields a structured failure (success =
false) with HTTP status 500, not 400: the parse error is caught by each
handler's generic `except` clause. -/
theorem malformed_page_range_gives_500 (fs : FS)
    (filepath outputDirStr output_path : String) (pagesForm : String)
    (msg : String) (h : parse_page_range pagesForm = .error msg)
    (hne : pagesForm ≠ "") :
    (split_endpoint fs true true filepath pagesForm outputDirStr).1 =
      ⟨false, 500, "Error splitting PDF"⟩ ∧
    rotate_endpoint fs true none pagesForm true filepath =
      ⟨false, 500, "Error rotating PDF"⟩ ∧
    remove_pages_endpoint fs true pagesForm true filepath output_path =
      ⟨false, 500, "Error removing pages"⟩ := by
  refine ⟨?_, ?_, ?_⟩
  · simp [split_endpoint, hne, h]
  · simp [rotate_endpoint, hne, h]
  · simp [remove_pages_endpoint, hne, h]

theorem mem_sortedDedup (l : List Int) (n : Int) : n ∈ sortedDedup l ↔ n ∈ l := by
  unfold sortedDedup
  rw [List.mem_insertionSort, List.mem_dedup]

theorem sortedDedup_nodup (l : List Int) : (sortedDedup l).Nodup := by
  unfold sortedDedup
  rw [(List.perm_insertionSort _ _).nodup_iff]
  exact l.nodup_dedup

theorem sortedDedup_sorted_lt (l : List Int) : (sortedDedup l).Sorted (· < ·) := by
  have hs : (sortedDedup l).Sorted (· ≤ ·) := List.sorted_insertionSort _ _
  have hnd : (sortedDedup l).Nodup := sortedDedup_nodup l
  exact (hs.and hnd).imp (fun h => lt_of_le_of_ne h.1 h.2)

/-- C3: `parse_page_range "1,3,5-7" = [1,3,5,6,7]`,
`parse_page_range "3,1,2" = [1,2,3]`, and in general every returned page
list is strictly ascending, duplicate-free, and contains exactly the
numbers denoted by the comma-separated tokens (the accumulation of the
token loop, before `sorted(set(...))` is applied). -/
theorem parse_page_range_dedups_and_sorts :
    parse_page_range "1,3,5-7" = .pages [1, 3, 5, 6, 7] ∧
    parse_page_range "3,1,2" = .pages [1, 2, 3] ∧
    ∀ s l, parse_page_range s = .pages l →
      l.Sorted (· < ·) ∧ l.Nodup ∧
      ∃ ps, collectTokens (splitOnChar ',' s.data) = .ok ps ∧
        ∀ n : Int, n ∈ l ↔ n ∈ ps := by
  refine ⟨by decide, by decide, fun s l h => ?_⟩
  unfold parse_page_range at h
  split at h
  · exact absurd h (by simp)
  · cases hc : collectTokens (splitOnChar ',' s.data) with
    | error m => rw [hc] at h; exact absurd h (by simp)
    | ok ps =>
      rw [hc] at h
      injection h with h'
      subst h'
      exact ⟨sortedDedup_sorted_lt ps, sortedDedup_nodup ps,
        ps, rfl, fun n => mem_sortedDedup ps n⟩

/-- C3, witness for the general clause at `"1,3,5-7"`. -/
theorem parse_page_range_dedups_and_sorts_witness :
    parse_page_range "1,3,5-7" = .pages [1, 3, 5, 6, 7] ∧
    ([1, 3, 5, 6, 7] : List Int).Sorted (· < ·) :=
  ⟨by decide,
    (parse_page_range_dedups_and_sorts.2.2 "1,3,5-7" [1, 3, 5, 6, 7]
      (by decide)).1⟩

/-- C5: a successful `compress_pdf` never reports an output larger than
the input: the final guard of pdf_handler.py lines 359-366 copies the
original whenever the best attempt is at least as large as it, reporting
reduction 0, so the reported `compressed_size` is always ≤
`original_size`; and whenever every delegated compression attempt
produced a size ≥ the original, the result is exactly the original size
with reduction 0. -/
theorem compress_pdf_never_expands (fs : FS)
    (input_path output_path quality : String) (target_reduction : Option Int)
    (m1 m2 : Option Nat) (images_compressed : Nat) (r : CompressOk)
    (h : compress_pdf fs input_path output_path quality target_reduction m1 m2
      images_compressed = .ok r) :
    r.compressed_size ≤ r.original_size ∧
    ((∀ s, m1 = some s → r.original_size ≤ s) →
     (∀ s, m2 = some s → r.original_size ≤ s) →
     r.compressed_size = r.original_size ∧ r.reduction = 0) := by
  cases m1 <;> cases m2 <;>
    simp only [compress_pdf] at h <;>
    (repeat' split at h) <;>
    first
      | exact CompressResult.noConfusion h
      | (injection h with h'
         subst h'
         refine ⟨?_, fun h1 h2 => ⟨?_, ?_⟩⟩ <;>
           simp_all <;>
           first
             | rfl
             | omega)

/-- C5, witness: a 100-byte input whose both compression attempts return
100 bytes is reported at exactly the original size. -/
theorem compress_pdf_never_expands_witness :
    (⟨"o.pdf", 100, 100, 0, 0, "pymupdf+pypdf"⟩ : CompressOk).compressed_size =
      (⟨"o.pdf", 100, 100, 0, 0, "pymupdf+pypdf"⟩ : CompressOk).original_size ∧
    (⟨"o.pdf", 100, 100, 0, 0, "pymupdf+pypdf"⟩ : CompressOk).reduction = 0 :=
  (compress_pdf_never_expands [("a.pdf", ⟨100, [0], none⟩)] "a.pdf" "o.pdf"
      "medium" none (some 100) (some 100) 0
      ⟨"o.pdf", 100, 100, 0, 0, "pymupdf+pypdf"⟩ rfl).2
    (fun s hs => by cases hs; exact le_refl 100)
    (fun s hs => by cases hs; exact le_refl 100)

/-- C7: protecting an unencrypted PDF with a non-empty password and
unlocking the protected output with the same password round-trips to the
original unencrypted document (readable without a password, pages
untouched); unlocking with any other non-empty password fails with the
distinct message `"Invalid password"` (not a generic failure). -/
theorem protect_unlock_roundtrip (fs : FS) (inp outp outp2 : String)
    (doc : PDFFile) (password : String)
    (hfind : fsLookup fs inp = some doc) (hinp : inp ≠ "")
    (houtp : outp ≠ "") (hsz : doc.size ≠ 0) (hpw : doc.password = none)
    (hpc : doc.pageCount ≠ 0) (hpwne : password ≠ "") :
    protect_pdf fs inp outp password =
      .ok { doc with password := some password } ∧
    unlock_pdf [(outp, { doc with password := some password })] outp outp2
      password = .ok doc ∧
    (∀ wrong, wrong ≠ password → wrong ≠ "" →
      unlock_pdf [(outp, { doc with password := some password })] outp outp2
        wrong = .err "Invalid password") := by
  have hval : validate_pdf_path fs inp = (true, none) := by
    simp [validate_pdf_path, hinp, hfind, hsz]
  have hfind' :
      fsLookup [(outp, { doc with password := some password })] outp =
        some { doc with password := some password } := by
    simp [fsLookup]
  have hval' :
      validate_pdf_path [(outp, { doc with password := some password })] outp =
        (true, none) := by
    simp [validate_pdf_path, houtp, hfind', hsz]
  refine ⟨?_, ?_, ?_⟩
  · simp [protect_pdf, hval, hpwne, safe_open_pdf, hfind, hpw, hpc]
  · have hdoc : { doc with password := none } = doc := by
      cases doc
      simp_all
    simp [unlock_pdf, hval', hfind', hpwne, hdoc]
  · intro wrong hw hw'
    simp [unlock_pdf, hval', hfind', hw, hw']

/-- C7, witness: a 100-byte two-page document, password `"test123"`,
wrong password `"hunter2"`. -/
theorem protect_unlock_roundtrip_witness :
    protect_pdf [("in.pdf", ⟨100, [0, 0], none⟩)] "in.pdf" "out.pdf"
      "test123" = .ok ⟨100, [0, 0], some "test123"⟩ ∧
    unlock_pdf [("out.pdf", ⟨100, [0, 0], some "test123"⟩)] "out.pdf"
      "u.pdf" "test123" = .ok ⟨100, [0, 0], none⟩ ∧
    unlock_pdf [("out.pdf", ⟨100, [0, 0], some "test123"⟩)] "out.pdf"
      "u.pdf" "hunter2" = .err "Invalid password" := by
  have h := protect_unlock_roundtrip [("in.pdf", ⟨100, [0, 0], none⟩)]
    "in.pdf" "out.pdf" "u.pdf" ⟨100, [0, 0], none⟩ "test123"
    (by decide) (by decide) (by decide) (by decide) rfl (by decide) (by decide)
  exact ⟨h.1, h.2.1, h.2.2 "hunter2" (by decide) (by decide)⟩

theorem length_eraseIdx_of_lt :
    ∀ (l : List Int) (i : Nat), i < l.length →
      (l.eraseIdx i).length + 1 = l.length := by
  intro l
  induction l with
  | nil => intro i h; simp at h
  | cons x xs ih =>
    intro i h
    cases i with
    | zero => simp [List.eraseIdx]
    | succ n =>
      simp only [List.eraseIdx, List.length_cons]
      have := ih n (by simpa using h)
      omega

theorem deletePagesLoop_length :
    ∀ (idx : List Nat) (rots rots' : List Int),
      deletePagesLoop rots idx = .ok rots' →
      rots'.length + idx.length = rots.length := by
  intro idx
  induction idx with
  | nil =>
    intro rots rots' h
    simp only [deletePagesLoop] at h
    injection h with h'
    subst h'
    simp
  | cons i rest ih =>
    intro rots rots' h
    simp only [deletePagesLoop] at h
    split at h
    next hlt =>
      have hr := ih _ _ h
      have hlen := length_eraseIdx_of_lt rots i hlt
      simp only [List.length_cons]
      omega
    next => exact Except.noConfusion h

/-- C9: `remove_pages` refuses to empty a document.  When the in-range
pages requested for removal cover every page, it fails with exactly
`"Cannot remove all pages from PDF"` before anything is written (the
model writes an output document only in the `.ok` case, matching the
source, which saves at line 723 after all checks); and every successful
`remove_pages` leaves at least one page in the output. -/
theorem remove_pages_keeps_a_page (fs : FS) (inp outp : String)
    (doc : PDFFile) (pages_to_remove : List Int)
    (hfind : fsLookup fs inp = some doc) (hinp : inp ≠ "")
    (hsz : doc.size ≠ 0) (hpw : doc.password = none)
    (hpc : doc.pageCount ≠ 0) :
    ((∀ q : Int, 1 ≤ q → q ≤ (doc.pageCount : Int) → q ∈ pages_to_remove) →
      remove_pages fs inp outp pages_to_remove =
        .err "Cannot remove all pages from PDF") ∧
    (∀ out k, remove_pages fs inp outp pages_to_remove = .ok out k →
      1 ≤ out.pageCount) := by
  have hval : validate_pdf_path fs inp = (true, none) := by
    simp [validate_pdf_path, hinp, hfind, hsz]
  have hso : safe_open_pdf fs inp none = .ok doc := by
    simp [safe_open_pdf, hfind, hpw, hpc]
  constructor
  · intro hcov
    have h1le : (1 : Int) ≤ (doc.pageCount : Int) := by
      exact_mod_cast Nat.one_le_iff_ne_zero.mpr hpc
    have h1mem : (1 : Int) ∈ pages_to_remove := hcov 1 le_rfl h1le
    have hnn : pages_to_remove ≠ [] := by
      intro e; rw [e] at h1mem; simp at h1mem
    have hne : pages_to_remove.isEmpty = false := by
      cases pages_to_remove with
      | nil => exact absurd rfl hnn
      | cons a l => rfl
    have hsub : Finset.Icc (1 : Int) (doc.pageCount : Int) ⊆
        (pages_to_remove.filter (fun p => decide (1 ≤ p) &&
          decide (p ≤ (doc.pageCount : Int)))).toFinset := by
      intro q hq
      rw [Finset.mem_Icc] at hq
      rw [List.mem_toFinset, List.mem_filter]
      refine ⟨hcov q hq.1 hq.2, ?_⟩
      simp [hq.1, hq.2]
    have hlen : doc.pageCount ≤ (pages_to_remove.filter
        (fun p => decide (1 ≤ p) &&
          decide (p ≤ (doc.pageCount : Int)))).length := by
      have hc1 := Finset.card_le_card hsub
      rw [Int.card_Icc] at hc1
      have hc2 := (pages_to_remove.filter (fun p => decide (1 ≤ p) &&
        decide (p ≤ (doc.pageCount : Int)))).toFinset_card_le
      simp only [add_sub_cancel_right, Int.toNat_natCast] at hc1
      omega
    have hvne : (pages_to_remove.filter (fun p => decide (1 ≤ p) &&
        decide (p ≤ (doc.pageCount : Int)))).isEmpty = false := by
      cases hvv : pages_to_remove.filter (fun p => decide (1 ≤ p) &&
          decide (p ≤ (doc.pageCount : Int))) with
      | nil => rw [hvv] at hlen; simp at hlen; exact absurd hlen hpc
      | cons a l => rfl
    simp [remove_pages, hval, hso, hne, hvne, hlen]
  · intro out k h
    simp only [remove_pages, hval, hso] at h
    split at h
    · exact RemoveResult.noConfusion h
    split at h
    · exact RemoveResult.noConfusion h
    split at h
    · exact RemoveResult.noConfusion h
    split at h
    next hall => exact RemoveResult.noConfusion h
    next hnotall =>
      split at h
      next e heq => exact RemoveResult.noConfusion h
      next rots' heq =>
        have hdl := deletePagesLoop_length _ _ _ heq
        rw [List.length_insertionSort, List.length_map] at hdl
        injection h with h1 h2
        subst h1
        simp only [PDFFile.pageCount] at hnotall hdl ⊢
        omega

/-- C9, witness: on a two-page document, removing `[1, 2]` is refused
with the exact message, and removing `[1]` succeeds with one page left. -/
theorem remove_pages_keeps_a_page_witness :
    remove_pages [("a.pdf", ⟨100, [0, 0], none⟩)] "a.pdf" "o.pdf" [1, 2] =
      .err "Cannot remove all pages from PDF" ∧
    1 ≤ (⟨100, [0], none⟩ : PDFFile).pageCount := by
  have h := remove_pages_keeps_a_page [("a.pdf", ⟨100, [0, 0], none⟩)]
    "a.pdf" "o.pdf" ⟨100, [0, 0], none⟩ [1, 2] (by decide) (by decide)
    (by decide) rfl (by decide)
  have h2 := remove_pages_keeps_a_page [("a.pdf", ⟨100, [0, 0], none⟩)]
    "a.pdf" "o.pdf" ⟨100, [0, 0], none⟩ [1] (by decide) (by decide)
    (by decide) rfl (by decide)
  refine ⟨h.1 ?_, h2.2 ⟨100, [0], none⟩ 1 (by decide)⟩
  intro q h1 h2q
  simp only [PDFFile.pageCount, List.length_cons, List.length_nil] at h2q
  have hq : q = 1 ∨ q = 2 := by omega
  rcases hq with rfl | rfl <;> simp

theorem modifyNth_getElem (f : Int → Int) :
    ∀ (l : List Int) (n i : Nat),
      (modifyNth f n l)[i]? = if i = n then (l[i]?).map f else l[i]? := by
  intro l
  induction l with
  | nil => intro n i; cases n <;> cases i <;> simp [modifyNth]
  | cons x xs ih =>
    intro n i
    cases n with
    | zero => cases i <;> simp [modifyNth]
    | succ m => cases i <;> simp [modifyNth, ih]

theorem rotatePagesLoop_getElem (angle : Int) (total : Nat) :
    ∀ (ps : List Int) (rots : List Int) (i : Nat),
      (rotatePagesLoop angle total rots ps).1[i]? =
        (rots[i]?).map (fun r => r +
          (ps.countP (fun p => decide (p = (i : Int) + 1) && decide (1 ≤ p) &&
            decide (p ≤ (total : Int))) : Int) * angle) := by
  intro ps
  induction ps with
  | nil =>
    intro rots i
    simp only [rotatePagesLoop, List.countP_nil]
    cases rots[i]? <;> simp
  | cons p rest ih =>
    intro rots i
    simp only [rotatePagesLoop, List.countP_cons]
    split
    next hin =>
      show (rotatePagesLoop angle total
          (modifyNth (fun x => x + angle) (p - 1).toNat rots) rest).1[i]? = _
      rw [ih, modifyNth_getElem]
      by_cases hpi : p = (i : Int) + 1
      · have hidx : i = (p - 1).toNat := by omega
        rw [if_pos hidx]
        have hpred : (decide (p = (i : Int) + 1) && decide (1 ≤ p) &&
            decide (p ≤ (total : Int))) = true := by
          simp only [Bool.and_eq_true, decide_eq_true_eq]
          exact ⟨⟨hpi, hin.1⟩, hin.2⟩
        rw [hpred]
        cases rots[i]? <;> simp
        ring
      · have hidx : ¬(i = (p - 1).toNat) := by omega
        rw [if_neg hidx]
        have hpred : (decide (p = (i : Int) + 1) && decide (1 ≤ p) &&
            decide (p ≤ (total : Int))) = false := by
          simp [hpi]
        rw [hpred]
        simp
    next hin =>
      rw [ih]
      have hpred : (decide (p = (i : Int) + 1) && decide (1 ≤ p) &&
          decide (p ≤ (total : Int))) = false := by
        rcases not_and_or.mp hin with hno | hno <;> simp [hno]
      rw [hpred]
      simp

theorem normalize_angle_eq_self_emod (angle : Int) :
    normalize_angle angle = normalize_angle (angle % 360) := by
  have h : angle % 360 % 360 = angle % 360 := Int.emod_emod_of_dvd angle dvd_rfl
  simp only [normalize_angle, h]

set_option maxHeartbeats 1600000 in
set_option maxRecDepth 4000 in
theorem normalize_angle_aux :
    ∀ n : Nat, n < 360 →
      (normalize_angle (n : Int) = 0 ∨
       normalize_angle (n : Int) = 90 ∨
       normalize_angle (n : Int) = 180 ∨
       normalize_angle (n : Int) = 270) ∧
      (∀ m ∈ ([0, 90, 180, 270] : List Int),
        circDist (n : Int) (normalize_angle (n : Int)) ≤
          circDist (n : Int) m) := by decide

/-- C10: `rotate_pdf` only ever applies a quarter-turn multiple: the
normalized angle lies in {0, 90, 180, 270}; it is at minimal circular
distance from `angle % 360` among the multiples of 90 (at the exact
half-way points 45/135/225/315 Python's round-half-to-even picks one of
the two nearest); and the normalized angle is what gets added to each
selected page's existing rotation (once per occurrence of the page
number in the requested list, as the source loop does). -/
theorem rotate_pdf_quarter_turns (angle : Int) :
    (normalize_angle angle = 0 ∨ normalize_angle angle = 90 ∨
     normalize_angle angle = 180 ∨ normalize_angle angle = 270) ∧
    (∀ m ∈ ([0, 90, 180, 270] : List Int),
      circDist (angle % 360) (normalize_angle angle) ≤
        circDist (angle % 360) m) ∧
    (∀ (fs : FS) (inp outp : String) (doc : PDFFile) (pages : List Int)
        (out : PDFFile) (cnt : Nat),
      fsLookup fs inp = some doc →
      rotate_pdf fs inp outp angle (some pages) = .ok out cnt →
      ∀ i : Nat, out.pageRotations[i]? =
        (doc.pageRotations[i]?).map (fun r => r +
          (pages.countP (fun p => decide (p = (i : Int) + 1) &&
            decide (1 ≤ p) && decide (p ≤ (doc.pageCount : Int))) : Int) *
          normalize_angle angle)) := by
  have h0 : 0 ≤ angle % 360 := Int.emod_nonneg angle (by norm_num)
  have h1 : angle % 360 < 360 := Int.emod_lt_of_pos angle (by norm_num)
  have hn := normalize_angle_aux (angle % 360).toNat (by omega)
  rw [Int.toNat_of_nonneg h0] at hn
  rw [← normalize_angle_eq_self_emod] at hn
  refine ⟨hn.1, hn.2, ?_⟩
  intro fs inp outp doc pages out cnt hfind h i
  simp only [rotate_pdf] at h
  split at h
  next => exact RotateResult.noConfusion h
  next hv =>
    cases hso : safe_open_pdf fs inp none with
    | error e => rw [hso] at h; exact RotateResult.noConfusion h
    | ok d =>
      rw [hso] at h
      have hd : d = doc := by
        simp only [safe_open_pdf, hfind] at hso
        split at hso
        · simp at hso
        · split at hso
          · exact Except.noConfusion hso
          · injection hso with h'
            exact h'.symm
      subst hd
      injection h with h1 h2
      subst h1
      exact rotatePagesLoop_getElem (normalize_angle angle) _ pages _ i

/-- C10, witness: angle 100 normalizes to 90 and is added to page 2 of a
two-page document. -/
theorem rotate_pdf_quarter_turns_witness :
    (normalize_angle 100 = 0 ∨ normalize_angle 100 = 90 ∨
     normalize_angle 100 = 180 ∨ normalize_angle 100 = 270) ∧
    ((⟨10, [0, 95], none⟩ : PDFFile).pageRotations[1]? =
      (((⟨10, [0, 5], none⟩ : PDFFile).pageRotations)[1]?).map (fun r => r +
        (([2] : List Int).countP (fun p => decide (p = ((1 : Nat) : Int) + 1) &&
          decide (1 ≤ p) &&
          decide (p ≤ (((⟨10, [0, 5], none⟩ : PDFFile).pageCount : Nat) : Int))) :
          Int) * normalize_angle 100)) :=
  ⟨(rotate_pdf_quarter_turns 100).1,
   (rotate_pdf_quarter_turns 100).2.2 [("in.pdf", ⟨10, [0, 5], none⟩)]
     "in.pdf" "o.pdf" ⟨10, [0, 5], none⟩ [2] ⟨10, [0, 95], none⟩ 1
     (by decide) (by decide) 1⟩

/-- C8 amended, witness at the malformed page string `"abc"`. -/
theorem malformed_page_range_gives_500_witness :
    (split_endpoint [] true true "up/x.pdf" "abc" "outputs/d").1 =
      ⟨false, 500, "Error splitting PDF"⟩ ∧
    rotate_endpoint [] true none "abc" true "up/x.pdf" =
      ⟨false, 500, "Error rotating PDF"⟩ ∧
    remove_pages_endpoint [] true "abc" true "up/x.pdf" "o.pdf" =
      ⟨false, 500, "Error removing pages"⟩ :=
  malformed_page_range_gives_500 [] "up/x.pdf" "outputs/d" "o.pdf" "abc"
    "invalid literal for int(): abc" (by decide) (by decide)

end PDFTools
